import Mathlib

/-!
Verification of the faceted classification and vocabulary-validation engine of
the fashion-metadata repository.  The Python sources under `src/` are shallowly
embedded: dictionaries become association lists (which preserve insertion
order, as Python dicts do), Python `None`/strings/lists/dicts that flow through
one variable become the `PyVal` sum type, machine floats used by the confidence
scorer become exact rationals (`ℚ`), and Python truthiness is modelled
explicitly (empty string, empty list, `None`, `0` are falsy).  External
collaborators (the image-analysis API, the GPT-2 text generator, the
filesystem, `difflib.get_close_matches`, `json.load`) are parameters of the
embedded operations, matching the spec's collaborator contracts.
-/

/-! ## Python string semantics -/

/-- Python `sub in s` (substring test): `pat` occurs contiguously in `s`. -/
def strContains (s pat : String) : Bool :=
  s.toList.tails.any (fun t => pat.toList.isPrefixOf t)

/-- Python `s.lower()` (ASCII lowering, as used throughout the source). -/
def pyLower (s : String) : String := String.mk (s.toList.map Char.toLower)

/-- Python `s.strip()`: remove leading and trailing whitespace. -/
def pyStrip (s : String) : String :=
  String.mk (((s.toList.dropWhile Char.isWhitespace).reverse.dropWhile
    Char.isWhitespace).reverse)

/-- The accumulator worker for Python `str.split()`. -/
def pySplitAux : List Char → List Char → List String
  | [], acc => if acc.isEmpty then [] else [String.mk acc.reverse]
  | c :: cs, acc =>
    if c.isWhitespace then
      if acc.isEmpty then pySplitAux cs [] else String.mk acc.reverse :: pySplitAux cs []
    else pySplitAux cs (c :: acc)

/-- Python `s.split()` with no separator: split on whitespace runs, dropping
empty pieces. -/
def pySplit (s : String) : List String := pySplitAux s.toList []

/-- Python `" ".join(parts)`. -/
def joinSpace : List String → String
  | [] => ""
  | [x] => x
  | x :: xs => x ++ " " ++ joinSpace xs

/-- The character-list worker for Python `str.title`: an alphabetic character
is uppercased when the previous character was not alphabetic, lowercased
otherwise. -/
def pyTitleAux : Bool → List Char → List Char
  | _, [] => []
  | prevAlpha, c :: cs =>
    (if c.isAlpha then (if prevAlpha then c.toLower else c.toUpper) else c) ::
      pyTitleAux c.isAlpha cs

/-- Python `s.title()`. -/
def pyTitle (s : String) : String := String.mk (pyTitleAux false s.toList)

/-- Python `s.capitalize()`: first character uppercased, the rest lowercased. -/
def pyCapitalize (s : String) : String :=
  match s.toList with
  | [] => ""
  | c :: cs => String.mk (c.toUpper :: cs.map Char.toLower)

/-- Python `a or b` on strings under truthiness: `""` is falsy.  The source
uses this both for `level2 or "Unknown"` and for `None`-valued level variables,
which behave identically to `""` under truthiness (every read in the source is
a truthiness test), so unset levels are represented by `""`. -/
def pyOr (a b : String) : String := if a = "" then b else a

/-! ## Python values

`PyVal` models the dynamically typed values that flow through
`_extract_flat_value`: `None`, strings, numbers, lists and dicts. -/

inductive PyVal : Type where
  | none : PyVal
  | str : String → PyVal
  | num : ℚ → PyVal
  | list : List PyVal → PyVal
  | dict : List (String × PyVal) → PyVal

/-- Association-list lookup of the first binding of a key, i.e. Python dict
access (Python dicts have unique keys; first binding wins for fidelity). -/
def lookupPy (kv : List (String × PyVal)) (k : String) : Option PyVal :=
  (kv.find? (fun p => p.1 = k)).map (fun p => p.2)

/-- Python `key in dict`. -/
def hasKeyPy (kv : List (String × PyVal)) (k : String) : Bool :=
  kv.any (fun p => p.1 = k)

/-- Python truthiness of a `PyVal`. -/
def pyTruthy : PyVal → Bool
  | .none => false
  | .str s => s ≠ ""
  | .num q => q ≠ 0
  | .list xs => !xs.isEmpty
  | .dict kv => !kv.isEmpty

/-- A CSV row as produced by `csv.DictReader`: ordered string-to-string pairs. -/
abbrev CsvRow : Type := List (String × String)

/-- Python `row.get(k, d)` on a CSV row. -/
def rowGetD (row : CsvRow) (k d : String) : String :=
  (((row.find? (fun p => p.1 = k))).map (fun p => p.2)).getD d

/-- Python `row.get(k)` followed by a truthiness test: the value when the key
is present and non-empty. -/
def rowTruthyGet (row : CsvRow) (k : String) : Option String :=
  match (row.find? (fun p => p.1 = k)).map (fun p => p.2) with
  | some s => if s = "" then none else some s
  | none => none

/-- Python `key in row`. -/
def hasKeyRow (row : CsvRow) (k : String) : Bool :=
  row.any (fun p => p.1 = k)

/-- Truthiness of an optional CSV row (`None` and the empty dict are falsy). -/
def rowTruthy : Option CsvRow → Bool
  | Option.none => false
  | Option.some r => !r.isEmpty

/-! ## Vocabulary (src/models/vocabulary_manager.py)

The vocabulary document is the JSON object consumed by `VocabularyManager` and
`FacetedMetadataGenerator`; sections the loaded file may lack are `[]`/`none`
here, matching the source's `dict.get(..., default)` accesses. -/

structure Vocab where
  gender : List String := []
  item_type : List String := []
  size : List String := []
  categories : List (String × List String) := []
  productTypes : List (String × List (String × List String)) := []
  colors : List String := []
  materials : List String := []
  patterns : List String := []
  usages : List String := []
  brands : List String := []
  styleHierarchy : Option (List (String × List (String × List String))) := Option.none

/-- Association-list lookup for string-keyed maps. -/
def lookupA {α : Type} (m : List (String × α)) (k : String) : Option α :=
  (m.find? (fun p => p.1 = k)).map (fun p => p.2)

/-- Python `key in m` for string-keyed maps. -/
def hasKeyA {α : Type} (m : List (String × α)) (k : String) : Bool :=
  m.any (fun p => p.1 = k)

/-- The default vocabulary built into `VocabularyManager._get_default_vocabulary`,
transcribed verbatim (including the duplicated pattern entries). -/
def defaultVocabVM : Vocab where
  gender := ["Men", "Women", "Unisex"]
  item_type := ["Apparel", "Footwear"]
  size := ["XS", "S", "M", "L", "XL", "XXL"]
  categories :=
    [("Apparel", ["Topwear", "Bottomwear", "Dress", "Outerwear", "Innerwear"]),
     ("Footwear", ["Shoes", "Sandals", "Flip Flops", "Boots", "Socks"])]
  productTypes :=
    [("Apparel",
       [("Topwear", ["Tops", "Tshirts", "Shirts", "Blouses"]),
        ("Bottomwear", ["Jeans", "Pants", "Shorts", "Skirts"])]),
     ("Footwear",
       [("Shoes", ["Casual Shoes", "Formal Shoes", "Sports Shoes"])])]
  colors := ["red", "pink", "black", "white", "brown", "green", "blue", "gold",
    "purple", "orange", "grey", "maroon", "yellow", "navy blue", "khaki",
    "magenta", "mushroom brown", "silver", "olive", "beige", "nude",
    "lavender", "tan"]
  materials := ["cotton", "denim", "leather", "silk", "polyester", "wool",
    "linen", "rayon", "spandex", "nylon", "canvas"]
  patterns := ["Solid", "Striped", "Floral", "Geometric", "Animal Print",
    "Paisley", "Polka Dot", "Check", "Stripes", "Tartan", "Houndstooth",
    "Checkered", "Gingham", "Tartan", "Houndstooth", "Checkered", "Gingham",
    "Tartan", "Houndstooth", "Checkered", "Gingham"]
  usages := ["Casual", "Formal", "Sporty"]
  brands := ["Adidas", "Aeropostale", "Allen", "Allen Solly", "American Eagle",
    "Ant", "Arrow", "ASICS", "Avengers", "Banana Republic", "Basics", "Bata",
    "Batman", "Ben", "Benetton", "Btwin", "Buckaroo", "Calvin Klein",
    "Carlton", "Catwalk", "Chhota Bheem", "Clarks", "Cobblerz", "Converse",
    "Coolers", "Crocs", "DC", "Decathlon", "Disney", "Do", "Doodle",
    "Enroute", "Estd.", "Fabindia", "FILA", "Filac", "Flying Machine",
    "Force", "Forever 21", "Fortune", "Franco", "Ganuchi", "Gap", "GAS",
    "Gini & Jony", "Giny", "Gliders", "Globalite", "Grendha", "Guess", "H&M",
    "Hannah", "Hollister", "ID", "Inc", "Jockey", "Kappa", "Lacoste",
    "Levi\x27s", "Marks & Spencer", "Mufti", "Nike", "Old Navy", "Pepe Jeans",
    "Peter England", "Provogue", "Puma", "Red Tape", "Reebok", "Skechers",
    "Sparx", "Tommy Hilfiger", "UCB", "Under Armour", "Uniqlo",
    "US Polo Assn", "Van Heusen", "Vans", "Versace", "Woodland", "Wrangler",
    "Yonex", "Zara"]

/-- State of the vocabulary file on disk, abstracting `os.path.exists` plus
`json.load`: the file is absent, or present and parseable to a vocabulary, or
present with content `json.load` rejects. -/
inductive VocabFile : Type where
  | missing : VocabFile
  | wellFormed : Vocab → VocabFile
  | malformed : VocabFile

/-- Embedding of `VocabularyManager._load_vocabulary`: when the path exists the
content is handed to `json.load` with no exception handling (a parse failure
propagates as `JSONDecodeError`); only a missing file falls back to the
built-in default vocabulary. -/
def loadVocabulary : VocabFile → Except String Vocab
  | .missing => .ok defaultVocabVM
  | .wellFormed v => .ok v
  | .malformed => .error "json.decoder.JSONDecodeError"

/-- Whether an `Except` computation finished without raising. -/
def isOkE {ε α : Type} : Except ε α → Bool
  | .ok _ => true
  | .error _ => false

/-- Validation context dictionaries (`{'item_type': ..., 'category': ...}`).
The source only tests them for truthiness and reads string values with
`.get`, so an association list of strings is a faithful model (`[]` plays the
role of the falsy empty dict). -/
abbrev Ctx : Type := List (String × String)

/-- Python `context.get(k)` followed by a truthiness test. -/
def ctxTruthyGet (c : Ctx) (k : String) : Option String :=
  match (c.find? (fun p => p.1 = k)).map (fun p => p.2) with
  | some s => if s = "" then none else some s
  | none => none

/-- Truthiness of the optional context argument. -/
def ctxTruthy : Option Ctx → Bool
  | Option.none => false
  | Option.some c => !c.isEmpty

/-- Embedding of `VocabularyManager._get_vocabulary_list`. -/
def getVocabularyList (v : Vocab) (field : String) (context : Option Ctx) :
    List String :=
  if field = "gender" then v.gender
  else if field = "item_type" then v.item_type
  else if field = "size" then v.size
  else if field = "category" ∧ ctxTruthy context then
    match ctxTruthyGet (context.getD []) "item_type" with
    | some it => (lookupA v.categories it).getD []
    | none => []
  else if field = "product_type" ∧ ctxTruthy context then
    match ctxTruthyGet (context.getD []) "item_type",
          ctxTruthyGet (context.getD []) "category" with
    | some it, some cat =>
        (lookupA ((lookupA v.productTypes it).getD []) cat).getD []
    | _, _ => []
  else if field = "color" then v.colors
  else if field = "material" then v.materials
  else if field = "pattern" then v.patterns
  else if field = "usage" then v.usages
  else if field = "brand" then v.brands
  else []

/-- Embedding of `VocabularyManager._normalize`: collapse internal whitespace,
then title-case. -/
def pyNormalize (value : String) : String :=
  pyTitle (joinSpace (pySplit value))

/-- Result triple of `validate`: `(isValid, normalized-or-canonical, suggestions)`. -/
abbrev VRes : Type := Bool × Option String × Option (List String)

/-- Embedding of `VocabularyManager.validate`.  `closeMatches` abstracts
`difflib.get_close_matches(normalized, vocab_list, n=3, cutoff=0.6)` (the
Python standard library, external to this repository); no claim depends on its
output. -/
def validate (v : Vocab) (closeMatches : String → List String → List String)
    (field value : String) (context : Option Ctx) : VRes :=
  let value := pyStrip value
  if value = "" then (false, Option.none, Option.none)
  else
    let normalized := pyNormalize value
    let vocabList := getVocabularyList v field context
    if vocabList = [] then (true, Option.some normalized, Option.none)
    else
      match vocabList.find? (fun term => pyLower term = pyLower normalized) with
      | some term => (true, Option.some term, Option.none)
      | none =>
        let suggestions := closeMatches normalized vocabList
        if suggestions = [] then (false, Option.some normalized, Option.none)
        else (false, Option.some normalized, Option.some suggestions)

/-- Embedding of `VocabularyManager.validate_hierarchy`. -/
def validateHierarchy (v : Vocab) (it cat pt : String) : Bool × String :=
  if ¬ v.item_type.contains it then
    (false, "Invalid item_type: " ++ it)
  else
    let validCats := (lookupA v.categories it).getD []
    if ¬ validCats.contains cat then
      (false, "Category \x27" ++ cat ++ "\x27 not valid for item_type \x27" ++
        it ++ "\x27")
    else
      let validPts := (lookupA ((lookupA v.productTypes it).getD []) cat).getD []
      if pt ≠ "" ∧ ¬ validPts.contains pt then
        (false, "Product type \x27" ++ pt ++ "\x27 not valid for category \x27" ++
          cat ++ "\x27")
      else (true, "")

/-! ## Faceted metadata generator (src/models/faceted_metadata.py) -/

/-- A per-item-type hierarchy: category keys to product-type lists, in
insertion order. -/
abbrev Hier : Type := List (String × List String)

/-- Image-analysis attributes: the dict returned by the image collaborator
(axis name to value), as consumed by `generate_faceted_metadata`. -/
abbrev PyDict : Type := List (String × PyVal)

/-- The default vocabulary built into `FacetedMetadataGenerator._load_vocabulary`
(used when the vocabulary file does not exist). -/
def defaultVocabGen : Vocab where
  item_type := ["Apparel", "Footwear"]
  categories :=
    [("Apparel", ["Topwear", "Bottomwear", "Dress"]),
     ("Footwear", ["Shoes", "Sandals"])]
  productTypes :=
    [("Apparel",
       [("Topwear", ["Tops", "Tshirts"]),
        ("Bottomwear", ["Jeans", "Pants"])])]

/-- Embedding of the `item_type_hierarchy` construction in
`FacetedMetadataGenerator.__init__` (identical to
`VocabularyManager.get_item_type_hierarchy`). -/
def buildItemTypeHierarchy (v : Vocab) : List (String × Hier) :=
  v.item_type.map (fun it =>
    (it, match lookupA v.categories it with
      | some cats =>
        cats.map (fun c =>
          (c, ((lookupA v.productTypes it).bind (fun m => lookupA m c)).getD []))
      | none => []))

/-- Candidate names of one attribute axis, i.e. `image_attributes.get(key, [])`
followed by `match.get("name", "")` per candidate.  Per the image-collaborator
contract the value is an ordered list of `{name, confidence}` dicts; values
outside that contract (on which the source would raise while iterating) are
read as no candidates / an empty name. -/
def candidateNames (d : PyDict) (k : String) : List String :=
  match lookupPy d k with
  | some (.list xs) =>
    xs.map (fun x =>
      match x with
      | .dict kv =>
        match lookupPy kv "name" with
        | some (.str s) => s
        | _ => ""
      | _ => "")
  | _ => []

/-- Embedding of `FacetedMetadataGenerator._determine_item_type`. -/
def determineItemType (names : List String) (csv : Option CsvRow) : String :=
  match (if rowTruthy csv then rowTruthyGet (csv.getD []) "Category" else none) with
  | some category =>
    if strContains category "Footwear" || strContains category "Shoe" then "Footwear"
    else "Apparel"
  | none =>
    if names.any (fun n =>
        ["shoe", "sneaker", "boot", "sandal", "footwear"].any
          (fun w => strContains (pyLower n) w)) then
      "Footwear"
    else "Apparel"

/-- The image tier of `_determine_gender`: scan candidate names in order,
case-insensitively. -/
def imageGenderScan : List String → String
  | [] => "Unisex"
  | n :: ns =>
    let name := pyLower n
    if strContains name "women" || strContains name "woman" || strContains name "girl" then
      "Women"
    else if strContains name "men" || strContains name "man" || strContains name "boy" then
      "Men"
    else imageGenderScan ns

/-- Python `product_info and product_info.get("gender")`: the manual gender
string when product info is a dict carrying a non-empty string there. -/
def pinfoGender (pinfo : PyVal) : Option String :=
  match pinfo with
  | .dict kv =>
    match lookupPy kv "gender" with
    | some (.str s) => if s = "" then none else some s
    | _ => none
  | _ => none

/-- Embedding of `FacetedMetadataGenerator._determine_gender`. -/
def determineGender (names : List String) (pinfo : PyVal) (csv : Option CsvRow) :
    String :=
  match (if rowTruthy csv then rowTruthyGet (csv.getD []) "Gender" else none) with
  | some gender =>
    if strContains gender "Girl" || strContains gender "Women" ||
        strContains gender "Female" then "Women"
    else if strContains gender "Boy" || strContains gender "Men" ||
        strContains gender "Male" then "Men"
    else "Unisex"
  | none =>
    match pinfoGender pinfo with
    | some gender =>
      if strContains gender "Women" || strContains gender "Girl" then "Women"
      else if strContains gender "Men" || strContains gender "Boy" then "Men"
      else "Unisex"
    | none => imageGenderScan names

/-- Python `any(word in name for word in ws)`. -/
def anyWordIn (ws : List String) (name : String) : Bool :=
  ws.any (fun w => strContains name w)

/-- The CSV branch of `_build_item_type_hierarchy` (SubCategory/ProductType
matching); `""` stands for a still-unset level. -/
def csvLevels (hier : Hier) (row : CsvRow) : String × String :=
  let subcategory := rowGetD row "SubCategory" ""
  let product_type := rowGetD row "ProductType" ""
  if hasKeyA hier subcategory then
    let pts := (lookupA hier subcategory).getD []
    (subcategory, if pts.contains product_type then product_type else pts.headD "")
  else
    match hier.findSome? (fun p =>
        if strContains (pyLower subcategory) (pyLower p.1) ||
            strContains (pyLower p.1) (pyLower subcategory) then
          some (p.1, if p.2.contains product_type then product_type else p.2.headD "")
        else none) with
    | some lv => lv
    | none => ("", "")

/-- First image loop of `_build_item_type_hierarchy`: direct/tokenized matching
of candidate names against hierarchy category keys, carrying the running
`(level2, level3)` state; the outer loop stops once `level2` is truthy. -/
def imgLoop1 (hier : Hier) : List String → String × String → String × String
  | [], st => st
  | n :: ns, st =>
    let name := pyLower n
    let st2 :=
      match hier.findSome? (fun p =>
          let keyLower := pyLower p.1
          if strContains name keyLower ||
              (pySplit keyLower).any (fun w => strContains name w) ||
              strContains keyLower name then
            some (p.1, p.2.headD "")
          else none) with
      | some lv => lv
      | none => st
    if st2.1 ≠ "" then st2 else imgLoop1 hier ns st2

/-- Level-3 chain of the tshirt keyword branch: a product type containing
"tshirt"/"t-shirt", else one containing "top", else the first product type. -/
def l3Tshirt (pts : List String) (cur : String) : String :=
  let a :=
    match pts.find? (fun pt =>
        strContains (pyLower pt) "tshirt" || strContains (pyLower pt) "t-shirt") with
    | some pt => pt
    | none => cur
  let b := if a = "" then ((pts.find? (fun pt => strContains (pyLower pt) "top")).getD "") else a
  if b = "" then pts.headD "" else b

/-- Level-3 chain of the shirt keyword branch: a product type one of whose
lowercase tokens occurs in the candidate name, else one containing "shirt",
else the first product type. -/
def l3Shirt (pts : List String) (name cur : String) : String :=
  let a :=
    match pts.find? (fun pt =>
        (pySplit (pyLower pt)).any (fun w => strContains name w)) with
    | some pt => pt
    | none => cur
  let b := if a = "" then ((pts.find? (fun pt => strContains (pyLower pt) "shirt")).getD "") else a
  if b = "" then pts.headD "" else b

/-- Level-3 chain used by the top/skirt/shoe keyword branches: a product type
one of whose lowercase tokens occurs in the candidate name, else the first
product type. -/
def l3Token (pts : List String) (name cur : String) : String :=
  let a :=
    match pts.find? (fun pt =>
        (pySplit (pyLower pt)).any (fun w => strContains name w)) with
    | some pt => pt
    | none => cur
  if a = "" then pts.headD "" else a

/-- Level-3 chain used by the shorts/jeans keyword branches: a product type
containing the given word, else the first product type. -/
def l3Sub (pts : List String) (w cur : String) : String :=
  let a :=
    match pts.find? (fun pt => strContains (pyLower pt) w) with
    | some pt => pt
    | none => cur
  if a = "" then pts.headD "" else a

/-- Level-3 chain of the pants keyword branch: a product type containing
"pant" or "trouser", else the first product type. -/
def l3PantSub (pts : List String) (cur : String) : String :=
  let a :=
    match pts.find? (fun pt =>
        strContains (pyLower pt) "pant" || strContains (pyLower pt) "trouser") with
    | some pt => pt
    | none => cur
  if a = "" then pts.headD "" else a

/-- Second image loop of `_build_item_type_hierarchy`: the common keyword
cascade, transcribed branch by branch.  A branch whose hierarchy key is absent
sets nothing and moves to the next candidate; the footwear branch terminates
the scan unconditionally (its `break` sits outside the item-type test). -/
def imgLoop2 (hier : Hier) (item_type : String) :
    List String → String × String → String × String
  | [], st => st
  | n :: ns, st =>
    let name := pyLower n
    if anyWordIn ["tshirt", "t-shirt", "t shirt"] name then
      match lookupA hier "Topwear" with
      | some pts => ("Topwear", l3Tshirt pts st.2)
      | none => imgLoop2 hier item_type ns st
    else if anyWordIn ["shirt", "blouse", "sweater", "hoodie", "sweatshirt", "polo"] name then
      match lookupA hier "Topwear" with
      | some pts => ("Topwear", l3Shirt pts name st.2)
      | none => imgLoop2 hier item_type ns st
    else if anyWordIn ["top", "blazer", "jacket", "waistcoat", "kurta"] name then
      match lookupA hier "Topwear" with
      | some pts => ("Topwear", l3Token pts name st.2)
      | none => imgLoop2 hier item_type ns st
    else if anyWordIn ["cargo shorts", "cargo short"] name then
      match lookupA hier "Bottomwear" with
      | some pts => ("Bottomwear", l3Sub pts "short" st.2)
      | none => imgLoop2 hier item_type ns st
    else if anyWordIn ["short", "shorts"] name then
      match lookupA hier "Bottomwear" with
      | some pts => ("Bottomwear", l3Sub pts "short" st.2)
      | none => imgLoop2 hier item_type ns st
    else if anyWordIn ["jean", "jeans"] name then
      match lookupA hier "Bottomwear" with
      | some pts => ("Bottomwear", l3Sub pts "jean" st.2)
      | none => imgLoop2 hier item_type ns st
    else if anyWordIn ["pant", "pants", "trouser", "trousers", "chino", "chinos"] name then
      match lookupA hier "Bottomwear" with
      | some pts => ("Bottomwear", l3PantSub pts st.2)
      | none => imgLoop2 hier item_type ns st
    else if anyWordIn ["skirt", "legging", "leggings", "capri", "churidar", "salwar"] name then
      match lookupA hier "Bottomwear" with
      | some pts => ("Bottomwear", l3Token pts name st.2)
      | none => imgLoop2 hier item_type ns st
    else if strContains name "dress" || strContains name "lehenga" then
      match lookupA hier "Dress" with
      | some pts => ("Dress", pts.headD "")
      | none => imgLoop2 hier item_type ns st
    else if anyWordIn ["shoe", "sneaker", "boot", "sandal", "flip", "flop"] name then
      if item_type = "Footwear" then
        match lookupA hier "Shoes" with
        | some pts => ("Shoes", l3Token pts name st.2)
        | none =>
          match lookupA hier "Sandal" with
          | some pts => ("Sandal", pts.headD "")
          | none =>
            match lookupA hier "Flip Flops" with
            | some pts => ("Flip Flops", pts.headD "")
            | none => st
      else st
    else if anyWordIn ["vest", "innerwear", "underwear"] name then
      match lookupA hier "Innerwear" with
      | some pts => ("Innerwear", pts.headD "")
      | none => imgLoop2 hier item_type ns st
    else if anyWordIn ["set", "kurta set"] name then
      match lookupA hier "Apparel Set" with
      | some pts => ("Apparel Set", pts.headD "")
      | none => imgLoop2 hier item_type ns st
    else imgLoop2 hier item_type ns st

/-- One resolved hierarchical facet: the dict
`{level_1, level_2, level_3, full_path, hierarchy_tree}`.  The UI edit path
rebuilds the dict without `hierarchy_tree`, hence the `Option`. -/
structure Facet where
  level_1 : String
  level_2 : String
  level_3 : String
  full_path : String
  hierarchy_tree : Option Hier
deriving DecidableEq

/-- Embedding of `FacetedMetadataGenerator._build_item_type_hierarchy`. -/
def buildItemTypeFacet (v : Vocab) (item_type : String) (attrs : PyDict)
    (csv : Option CsvRow) : Facet :=
  let hier := (lookupA (buildItemTypeHierarchy v) item_type).getD []
  let names := candidateNames attrs "category"
  let st :=
    if rowTruthy csv then csvLevels hier (csv.getD [])
    else
      let st1 := imgLoop1 hier names ("", "")
      if st1.1 = "" then imgLoop2 hier item_type names st1 else st1
  let level2 :=
    if st.1 = "" ∧ hier ≠ [] then (hier.headD ("", [])).1 else st.1
  let level3 :=
    if st.2 ≠ "" then st.2
    else if level2 ≠ "" ∧ (lookupA hier level2).getD [] ≠ [] then
      ((lookupA hier level2).getD []).headD ""
    else if level2 = "Topwear" then "Tops"
    else if level2 = "Bottomwear" then "Pants"
    else if level2 = "Dress" then "Dresses"
    else if level2 = "Shoes" then "Casual Shoes"
    else "Unknown"
  let l2f := pyOr level2 "Unknown"
  let l3f := pyOr level3 "Unknown"
  { level_1 := item_type
    level_2 := l2f
    level_3 := l3f
    full_path := item_type ++ " > " ++ l2f ++ " > " ++ l3f
    hierarchy_tree := some hier }

/-- A style hierarchy: style level-1 keys to sub-style trees. -/
abbrev StyleHier : Type := List (String × List (String × List String))

/-- The fixed default style hierarchy
(`_get_default_style_hierarchy`, identical in both modules carrying it). -/
def defaultStyleHierarchy : StyleHier :=
  [("Casual",
     [("Everyday", ["Basic", "Comfort", "Relaxed"]),
      ("Streetwear", ["Urban", "Trendy", "Athletic"]),
      ("Weekend", ["Leisure", "Outdoor", "Active"]),
      ("Smart Casual", ["Polished", "Refined", "Elevated"])]),
   ("Formal",
     [("Business", ["Professional", "Corporate", "Office"]),
      ("Evening", ["Elegant", "Sophisticated", "Dressy"]),
      ("Special Occasion", ["Party", "Wedding", "Event"])]),
   ("Sporty",
     [("Athletic", ["Performance", "Training", "Gym"]),
      ("Active", ["Outdoor", "Hiking", "Running"]),
      ("Athleisure", ["Comfort", "Stylish", "Versatile"])]),
   ("Ethnic",
     [("Traditional", ["Classic", "Cultural", "Heritage"]),
      ("Fusion", ["Modern", "Contemporary", "Blended"])])]

/-- Embedding of `FacetedMetadataGenerator._build_style_hierarchy`. -/
def buildStyleFacet (v : Vocab) (csv : Option CsvRow) : Facet :=
  let sh := v.styleHierarchy.getD defaultStyleHierarchy
  let level1raw :=
    match (if rowTruthy csv then rowTruthyGet (csv.getD []) "Usage" else none) with
    | some usage =>
      if hasKeyA sh usage then usage
      else if strContains usage "Casual" || strContains usage "Smart Casual" then "Casual"
      else if strContains usage "Formal" then "Formal"
      else if strContains usage "Sport" || strContains usage "Athletic" ||
          strContains usage "Sports" then "Sporty"
      else if strContains usage "Ethnic" then "Ethnic"
      else
        (sh.findSome? (fun p =>
          if strContains (pyLower usage) (pyLower p.1) ||
              strContains (pyLower p.1) (pyLower usage) then some p.1
          else none)).getD ""
    | none => ""
  let level1 := pyOr level1raw "Casual"
  let hier := (lookupA sh level1).getD []
  let lv23 :=
    match hier with
    | [] =>
      if level1 = "Casual" then ("Everyday", "Basic")
      else if level1 = "Formal" then ("Business", "Professional")
      else if level1 = "Sporty" then ("Athletic", "Performance")
      else if level1 = "Ethnic" then ("Traditional", "Classic")
      else ("Everyday", "Basic")
    | h :: _ =>
      (h.1,
        if h.2 ≠ ([] : List String) then h.2.headD ""
        else if level1 = "Casual" then "Basic"
        else if level1 = "Formal" then "Professional"
        else if level1 = "Sporty" then "Performance"
        else if level1 = "Ethnic" then "Classic"
        else "Basic")
  let l2f := pyOr lv23.1 "Unknown"
  let l3f := pyOr lv23.2 "Unknown"
  { level_1 := level1
    level_2 := l2f
    level_3 := l3f
    full_path := level1 ++ " > " ++ l2f ++ " > " ++ l3f
    hierarchy_tree := some hier }

/-- The CSV column looked up by `_extract_flat_value` for a facet key
(`key_map` plus `key.capitalize()` for unknown keys). -/
def csvKeyMap (key : String) : String :=
  if key = "color" then "Colour"
  else if key = "material" then "Material"
  else if key = "pattern" then "Pattern"
  else if key = "size" then "Size"
  else if key = "brand" then "Brand"
  else pyCapitalize key

/-- The CSV tail of `_extract_flat_value`: the mapped column's value when the
row is truthy and carries it, else the literal `"Unknown"`. -/
def flatFromCsv (key : String) (source2 : Option CsvRow) : PyVal :=
  if rowTruthy source2 then
    if hasKeyRow (source2.getD []) (csvKeyMap key) then
      .str (rowGetD (source2.getD []) (csvKeyMap key) "")
    else .str "Unknown"
  else .str "Unknown"

/-- Embedding of `FacetedMetadataGenerator._extract_flat_value`: try the
primary source (image attributes or manual product info) across the supported
value shapes, then the CSV row, then the literal `"Unknown"`. -/
def extractFlatValue (key : String) (source1 : PyVal) (source2 : Option CsvRow) :
    PyVal :=
  let fromSource2 : PyVal := flatFromCsv key source2
  match source1 with
  | .dict kv =>
    match lookupPy kv key with
    | some value =>
      match value with
      | .list (h :: _) =>
        match h with
        | .dict d =>
          if hasKeyPy d "name" then (lookupPy d "name").getD .none
          else if pyTruthy h then h else .none
        | _ => if pyTruthy h then h else .none
      | .dict d =>
        if hasKeyPy d "primary" then (lookupPy d "primary").getD .none
        else if hasKeyPy d "name" then (lookupPy d "name").getD .none
        else value
      | .str s => .str s
      | _ => fromSource2
    | none => fromSource2
  | _ => fromSource2

/-- Embedding of `FacetedMetadataGenerator._build_flat_metadata`. -/
def buildFlatMetadata (attrs : PyDict) (pinfo : PyVal) (csv : Option CsvRow) :
    PyDict :=
  let base : PyDict :=
    [("color", extractFlatValue "color" (.dict attrs) csv),
     ("material", extractFlatValue "material" (.dict attrs) csv),
     ("pattern", extractFlatValue "pattern" (.dict attrs) csv),
     ("size", extractFlatValue "size" pinfo csv),
     ("brand", extractFlatValue "brand" pinfo csv),
     ("product_id", .str (if rowTruthy csv then rowGetD (csv.getD []) "ProductId" "" else "")),
     ("product_title", .str (if rowTruthy csv then rowGetD (csv.getD []) "ProductTitle" "" else "")),
     ("image_url", .str (if rowTruthy csv then rowGetD (csv.getD []) "ImageURL" "" else "")),
     ("image_file", .str (if rowTruthy csv then rowGetD (csv.getD []) "Image" "" else ""))]
  let details :=
    ["color", "material", "pattern", "style"].filterMap (fun t =>
      match lookupPy attrs t with
      | some v => if pyTruthy v then some (t ++ "_details", v) else none
      | none => none)
  base ++ details

/-- The result dict of `generate_faceted_metadata`: the two hierarchical
facets, the flat facets, and the top-level item type and gender. -/
structure FacetedResult where
  facet1 : Facet
  facet2 : Facet
  flat : PyDict
  item_type : String
  gender : String

/-- Embedding of `FacetedMetadataGenerator.generate_faceted_metadata`. -/
def generateFacetedMetadata (v : Vocab) (attrs : PyDict) (pinfo : PyVal)
    (csv : Option CsvRow) : FacetedResult :=
  let names := candidateNames attrs "category"
  let item_type := determineItemType names csv
  let gender := determineGender names pinfo csv
  { facet1 := buildItemTypeFacet v item_type attrs csv
    facet2 := buildStyleFacet v csv
    flat := buildFlatMetadata attrs pinfo csv
    item_type := item_type
    gender := gender }

/-! ## Confidence scorer (src/models/confidence_scorer.py)

Scores are exact rationals; Python `round(x, 2)` on binary floats is modelled
as round-half-up on rationals scaled by 100 (no claim depends on the tie
direction of the final rounding). -/

/-- Python `round(x, 2)` over `ℚ`. -/
def roundTo2 (x : ℚ) : ℚ := ((round (100 * x) : ℤ) : ℚ) / 100

/-- Embedding of `ConfidenceScorer.calculate_confidence`, transcribed in the
source's sequential style: source base, image-confidence blend, vocabulary
adjustment, field-specific adjustment, rounding.  The `value` argument is
unused by the source body and kept for signature fidelity. -/
def calculateConfidence (field : String) (value : PyVal) (source : String)
    (image_confidence : Option ℚ) (vocabulary_match : Option Bool) : ℚ :=
  let base : ℚ :=
    if source = "manual" then 1
    else if source = "csv" then 9/10
    else if source = "image" then 7/10
    else if source = "generated" then 6/10
    else 1/2
  let base :=
    match image_confidence with
    | some c => if source = "image" then (base + c) / 2 else base
    | none => base
  let base :=
    match vocabulary_match with
    | some b => if b then min 1 (base + 1/10) else max 0 (base - 2/10)
    | none => base
  let base :=
    if field = "gender" ∨ field = "item_type" ∨ field = "size" then
      min 1 (base + 1/10)
    else if field = "color" ∨ field = "material" then
      match image_confidence with
      | some c => if source = "image" ∧ c ≠ 0 then c else base
      | none => base
    else if field = "title" ∨ field = "description" then
      max 0 (base - 1/10)
    else base
  roundTo2 base

/-- Spec-side stage 1: base confidence by source
(`manual=1.0, csv=0.9, image=0.7, generated=0.6`, unknown source `0.5`). -/
def sourceBaseSpec (source : String) : ℚ :=
  if source = "manual" then 1
  else if source = "csv" then 9/10
  else if source = "image" then 7/10
  else if source = "generated" then 6/10
  else 1/2

/-- Spec-side stage 2: when the source is `image` and an image confidence is
supplied, the base becomes the average of base and image confidence. -/
def blendImageSpec (source : String) (ic : Option ℚ) (b : ℚ) : ℚ :=
  if source = "image" then
    match ic with
    | some c => (b + c) / 2
    | none => b
  else b

/-- Spec-side stage 3: a supplied vocabulary match adds `0.1` capped at `1.0`;
a mismatch subtracts `0.2` floored at `0.0`. -/
def vocabAdjustSpec (vm : Option Bool) (b : ℚ) : ℚ :=
  match vm with
  | some true => min 1 (b + 1/10)
  | some false => max 0 (b - 2/10)
  | none => b

/-- Spec-side stage 4: field-specific overrides.  For color/material sourced
from the image, the raw image confidence replaces the blended base when one is
available — availability being a Python truthiness test in the source, i.e. a
supplied nonzero confidence. -/
def fieldAdjustSpec (field source : String) (ic : Option ℚ) (b : ℚ) : ℚ :=
  if ["gender", "item_type", "size"].contains field then min 1 (b + 1/10)
  else if ["color", "material"].contains field then
    if source = "image" then
      match ic with
      | some c => if c = 0 then b else c
      | none => b
    else b
  else if ["title", "description"].contains field then max 0 (b - 1/10)
  else b

/-- The staged pipeline of §4.3 of the spec: stages 1–4 in order, then rounding
to two decimal places. -/
def calculateConfidenceSpec (field source : String) (ic : Option ℚ)
    (vm : Option Bool) : ℚ :=
  roundTo2 (fieldAdjustSpec field source ic
    (vocabAdjustSpec vm (blendImageSpec source ic (sourceBaseSpec source))))

/-! ## Review interface and edit path (src/app_streamlit.py) -/

/-- The descriptive block of a metadata record. -/
structure Descriptive where
  title : String
  short_description : String
  long_description : String
  bullet_points : List String

/-- A single-product metadata record as assembled by the review app:
faceted data, descriptive text, validation results, review status and
timestamps (confidence scores and ids are carried unchanged by the operations
modelled here and are omitted). -/
structure AppMetadata where
  faceted : FacetedResult
  descriptive : Descriptive
  validation_results : List (String × VRes)
  status : String
  approved_at : Option String
  updated_at : Option String

/-- The edit values read from the UI session state by
`update_metadata_from_ui` (absent widgets read as `""`). -/
structure Edits where
  item_type : String := ""
  category : String := ""
  product_type : String := ""
  style_level1 : String := ""
  style_level2 : String := ""
  style_level3 : String := ""
  gender : String := ""
  brand : String := ""
  size : String := ""
  color : String := ""
  material : String := ""
  pattern : String := ""
  title : String := ""
  short_desc : String := ""
  long_desc : String := ""
  bullet_points : List String := []

/-- Python `dict.update` for one key: replace the first binding in place,
else append. -/
def updateAssoc : PyDict → String → PyVal → PyDict
  | [], k, v => [(k, v)]
  | (k0, v0) :: rest, k, v =>
    if k0 = k then (k0, v) :: rest else (k0, v0) :: updateAssoc rest k v

/-- Embedding of `update_metadata_from_ui`: overwrite both hierarchical facets
and the editable flat facets from the edit values, rebuild `full_path` (the
three-level join only when all three levels are truthy, else `""`), overwrite
the descriptive block, re-validate gender/item_type/color/material and the
facet-1 hierarchy triple, and stamp `updated_at`. -/
def updateMetadataFromUI (meta : AppMetadata) (e : Edits) (v : Vocab)
    (cm : String → List String → List String) (now : String) : AppMetadata :=
  let facet1 : Facet :=
    { level_1 := e.item_type
      level_2 := e.category
      level_3 := e.product_type
      full_path :=
        if e.item_type ≠ "" ∧ e.category ≠ "" ∧ e.product_type ≠ "" then
          e.item_type ++ " > " ++ e.category ++ " > " ++ e.product_type
        else ""
      hierarchy_tree := Option.none }
  let facet2 : Facet :=
    { level_1 := e.style_level1
      level_2 := e.style_level2
      level_3 := e.style_level3
      full_path :=
        if e.style_level1 ≠ "" ∧ e.style_level2 ≠ "" ∧ e.style_level3 ≠ "" then
          e.style_level1 ++ " > " ++ e.style_level2 ++ " > " ++ e.style_level3
        else ""
      hierarchy_tree := Option.none }
  let flat :=
    updateAssoc (updateAssoc (updateAssoc (updateAssoc (updateAssoc
      meta.faceted.flat "brand" (.str e.brand)) "size" (.str e.size))
      "color" (.str e.color)) "material" (.str e.material))
      "pattern" (.str e.pattern)
  let hv := validateHierarchy v facet1.level_1 facet1.level_2 facet1.level_3
  let validation : List (String × VRes) :=
    [("gender", validate v cm "gender" e.gender Option.none),
     ("item_type", validate v cm "item_type" e.item_type Option.none),
     ("color", validate v cm "color" e.color Option.none),
     ("material", validate v cm "material" e.material Option.none),
     ("hierarchy",
       (hv.1, if hv.1 then Option.none else Option.some hv.2, Option.none))]
  { meta with
    faceted :=
      { meta.faceted with
        facet1 := facet1
        facet2 := facet2
        flat := flat
        gender := e.gender
        item_type := e.item_type }
    descriptive :=
      { title := e.title
        short_description := e.short_desc
        long_description := e.long_desc
        bullet_points := e.bullet_points }
    validation_results := validation
    updated_at := Option.some now }

/-- Python `all(result[0] for result in validation.values())` as computed by
the review interface loop. -/
def allValid (vr : List (String × VRes)) : Bool := vr.all (fun p => p.2.1)

/-- Embedding of the Approve click handler in `display_review_interface`:
gate on the record's stored validation results; on failure report the error
and leave the record untouched; on success re-apply the current UI edit values
(which re-validates) and then mark the record approved with a timestamp. -/
def approveClick (meta : AppMetadata) (e : Edits) (v : Vocab)
    (cm : String → List String → List String) (now : String) :
    Except String AppMetadata :=
  if ¬ allValid meta.validation_results then
    .error "Cannot approve: Some fields have validation errors. Please fix them first."
  else
    let u := updateMetadataFromUI meta e v cm now
    .ok { u with status := "approved", approved_at := Option.some now }

/-! ## Bulk processor (src/models/bulk_processor.py)

The image analyzer, classifier, attribute extractor and text generator are
collaborator parameters (the latter three are total pure functions in the
source: they raise no exceptions on any input, which the parameter types
reflect); `fs` abstracts `os.path.exists`. -/

/-- Manual product info dicts (`{'brand': ..., 'gender': ...}`). -/
abbrev PInfo : Type := List (String × String)

/-- Python `classification.get('tags', [])` under the classifier contract
(a dict whose `tags` value is a list). -/
def pyGetTags : PyVal → List PyVal
  | .dict kv =>
    match lookupPy kv "tags" with
    | some (.list xs) => xs
    | _ => []
  | _ => []

/-- The source block of a bulk metadata record. -/
structure BulkSource where
  product_id : String
  image_file : String
  image_url : String

/-- The discovery block of a bulk metadata record. -/
structure Discovery where
  keywords : List String
  related_tags : List PyVal

/-- A complete bulk metadata record as compiled by `process_single_product`. -/
structure BulkMetadata where
  faceted : FacetedResult
  descriptive : Descriptive
  classification : PyVal
  technical : PyVal
  discovery : Discovery
  source : BulkSource

/-- Truthiness of the optional images directory string. -/
def dirTruthy : Option String → Bool
  | Option.some d => d ≠ ""
  | Option.none => false

/-- Embedding of `BulkProcessor.process_single_product`.  Raising is modelled
by `Except.error`; the only raise sites are the explicit
`FileNotFoundError` and whatever the image-analysis collaborator raises.
`os.path.join` is modelled as `/`-joining (only ever observed through `fs`).
The source's path conditional `if images_dir and image_file: ... elif
image_file and os.path.exists(image_file): ...` is split on `image_file`
first — equivalent, since both branches require a truthy `image_file`.
Note that the source performs no required-field check on the row. -/
def processSingleProduct (fs : String → Bool)
    (analyze : String → Except String PyDict)
    (classify : PyDict → CsvRow → PyVal)
    (extractAttributes : PyDict → CsvRow → PyVal)
    (genTitle genDescription : PInfo → PyDict → String)
    (genBullets genKeywords : PInfo → PyDict → List String)
    (v : Vocab) (csvRow : CsvRow) (imagesDir : Option String) :
    Except String BulkMetadata :=
  let image_file := rowGetD csvRow "Image" ""
  let pathRes : Except String (Option String) :=
    if image_file = "" then .ok Option.none
    else if dirTruthy imagesDir then
      let p := (imagesDir.getD "") ++ "/" ++ image_file
      if fs p then .ok (Option.some p)
      else if fs image_file then .ok (Option.some image_file)
      else .error ("Image not found: " ++ image_file)
    else if fs image_file then .ok (Option.some image_file)
    else .ok Option.none
  match pathRes with
  | .error err => .error err
  | .ok pathOpt =>
    let attrsRes : Except String PyDict :=
      match pathOpt with
      | Option.some p => if p ≠ "" ∧ fs p then analyze p else .ok []
      | Option.none => .ok []
    match attrsRes with
    | .error err => .error err
    | .ok attrs =>
      let faceted := generateFacetedMetadata v attrs .none (Option.some csvRow)
      let classification := classify attrs csvRow
      let technical := extractAttributes attrs csvRow
      let pinfo : PInfo :=
        [("brand", rowGetD csvRow "Brand" ""), ("gender", rowGetD csvRow "Gender" "")]
      let title0 := rowGetD csvRow "ProductTitle" ""
      let title := if title0 = "" then genTitle pinfo attrs else title0
      let description := genDescription pinfo attrs
      .ok
        { faceted := faceted
          descriptive :=
            { title := title
              short_description :=
                if description.toList.length > 150 then
                  String.mk (description.toList.take 150) ++ "..."
                else description
              long_description := description
              bullet_points := genBullets pinfo attrs }
          classification := classification
          technical := technical
          discovery :=
            { keywords := genKeywords pinfo attrs
              related_tags := (pyGetTags classification).take 10 }
          source :=
            { product_id := rowGetD csvRow "ProductId" ""
              image_file := image_file
              image_url := rowGetD csvRow "ImageURL" "" } }

/-- A per-row outcome of batch processing: the successful record tagged with
its 1-based row index and raw source row, or the error outcome
`{error, csv_row_index, csv_data}`. -/
inductive Outcome : Type where
  | success : BulkMetadata → Nat → CsvRow → Outcome
  | failure : String → Nat → CsvRow → Outcome

/-- Python `if limit` where `limit` is `None` or an int. -/
def limTruthy : Option Nat → Bool
  | Option.some n => n ≠ 0
  | Option.none => false

/-- The row loop of `BulkProcessor.process_csv`: per-row try/except around the
given row processor, capturing errors as outcomes and continuing. -/
def processRows (proc : CsvRow → Except String BulkMetadata)
    (limit : Option Nat) : List CsvRow → Nat → List Outcome
  | [], _ => []
  | r :: rs, idx =>
    if limTruthy limit ∧ limit.getD 0 ≤ idx then []
    else
      (match proc r with
       | .ok m => Outcome.success m (idx + 1) r
       | .error e => Outcome.failure e (idx + 1) r) ::
      processRows proc limit rs (idx + 1)

/-- Embedding of `BulkProcessor.process_csv` over parsed rows. -/
def processCsv (proc : CsvRow → Except String BulkMetadata)
    (rows : List CsvRow) (limit : Option Nat) : List Outcome :=
  processRows proc limit rows 0

/-- The invariant claimed for hierarchical facets: `full_path` is the literal
three-level join and no level is empty. -/
def facetInv (f : Facet) : Prop :=
  f.full_path = f.level_1 ++ " > " ++ f.level_2 ++ " > " ++ f.level_3 ∧
    f.level_1 ≠ "" ∧ f.level_2 ≠ "" ∧ f.level_3 ≠ ""

/-- A concrete generated record used to exercise the edit path of C1. -/
def c1Meta : AppMetadata :=
  { faceted := generateFacetedMetadata defaultVocabGen [] .none Option.none
    descriptive :=
      { title := "", short_description := "", long_description := ""
        bullet_points := [] }
    validation_results := []
    status := "pending_review"
    approved_at := Option.none
    updated_at := Option.none }

/-- The record of `c1Meta` after applying an edit set whose category is the
empty selection. -/
def c1Edited : AppMetadata :=
  updateMetadataFromUI c1Meta
    { item_type := "Apparel", category := "", product_type := "Tops"
      style_level1 := "Casual", style_level2 := "Everyday", style_level3 := "Basic" }
    defaultVocabVM (fun _ _ => []) "2024-01-01T00:00:00"

/-- Substring rule of gender resolution: any women-word present wins, else any
men-word, else `Unisex`. -/
def genderRule (womenWords menWords : List String) (g : String) : String :=
  if womenWords.any (fun w => strContains g w) then "Women"
  else if menWords.any (fun w => strContains g w) then "Men"
  else "Unisex"

/-- The image tier of gender resolution, spec-style: the first candidate name
carrying a case-insensitive women/men keyword decides; otherwise `Unisex`. -/
def imageGenderSpec (names : List String) : String :=
  (names.findSome? (fun n =>
    if ["women", "woman", "girl"].any (fun w => strContains (pyLower n) w) then
      some "Women"
    else if ["men", "man", "boy"].any (fun w => strContains (pyLower n) w) then
      some "Men"
    else none)).getD "Unisex"

/-- Gender resolution as the three-tier priority rule: (1) the row `Gender`
field under the substring sets {Girl, Women, Female} / {Boy, Men, Male};
(2) manual `product_info.gender` under the smaller sets {Women, Girl} /
{Men, Boy} (so `Female` or `Male` alone yields `Unisex` there); (3) image
candidate text, case-insensitively under {women, woman, girl} / {men, man,
boy}; default `Unisex`. -/
def determineGenderSpec (names : List String) (pinfo : PyVal)
    (csv : Option CsvRow) : String :=
  match (if rowTruthy csv then rowTruthyGet (csv.getD []) "Gender" else none) with
  | some g => genderRule ["Girl", "Women", "Female"] ["Boy", "Men", "Male"] g
  | none =>
    match pinfoGender pinfo with
    | some g => genderRule ["Women", "Girl"] ["Men", "Boy"] g
    | none => imageGenderSpec names

/-- Primary-source values on which `_extract_flat_value` falls through to the
CSV row without returning: the key is absent, the source is not a dict, or the
value is `None`, a number, or an empty list. -/
def flatFallsThrough (s1 : PyVal) (key : String) : Bool :=
  match s1 with
  | .dict kv =>
    match lookupPy kv key with
    | some v =>
      match v with
      | .none => true
      | .num _ => true
      | .list ([] : List PyVal) => true
      | _ => false
    | none => true
  | _ => true

/-- Whether the CSV fallback yields no value for the key: the row is absent or
falsy, or lacks the mapped column. -/
def csvNoValue (s2 : Option CsvRow) (key : String) : Bool :=
  match s2 with
  | Option.none => true
  | Option.some row =>
    if row.isEmpty then true else !(hasKeyRow row (csvKeyMap key))

/-- Well-shaped primary values: those on which the first-source branch of
`_extract_flat_value` either returns a string or falls through.  Excluded are
exactly: a non-empty list whose head is not a dict carrying a string `name`
(and is not a non-empty bare string), and a dict carrying neither a string
`primary` nor a string `name`. -/
def flatSourceOk : PyVal → Bool
  | .none => true
  | .num _ => true
  | .str _ => true
  | .list ([] : List PyVal) => true
  | .list (h :: _) =>
    match h with
    | .dict kv =>
      match lookupPy kv "name" with
      | some (.str _) => true
      | _ => false
    | .str s => s ≠ ""
    | _ => false
  | .dict kv =>
    match lookupPy kv "primary" with
    | some (.str _) => true
    | some _ => false
    | none =>
      match lookupPy kv "name" with
      | some (.str _) => true
      | _ => false

/-- Whether the primary source offers only a well-shaped value for the key. -/
def primaryOk (s1 : PyVal) (key : String) : Bool :=
  match s1 with
  | .dict kv =>
    match lookupPy kv key with
    | some v => flatSourceOk v
    | none => true
  | _ => true

/-- A record whose stored validation results all pass, as left by a
generation-plus-save cycle. -/
def c7Meta : AppMetadata :=
  { faceted := generateFacetedMetadata defaultVocabGen [] .none Option.none
    descriptive :=
      { title := "", short_description := "", long_description := ""
        bullet_points := [] }
    validation_results :=
      [("gender", (true, some "Unisex", Option.none)),
       ("item_type", (true, some "Apparel", Option.none)),
       ("color", (true, some "red", Option.none)),
       ("material", (true, some "cotton", Option.none)),
       ("hierarchy", (true, Option.none, Option.none))]
    status := "pending_review"
    approved_at := Option.none
    updated_at := Option.none }

/-- Session edit values in which the item-type selectbox has been cleared to
the empty selection after the last save (reachable in the UI: the selectboxes
offer `""` and validation is only recomputed on Save or Approve). -/
def c7Edits : Edits :=
  { item_type := "", category := "Topwear", product_type := "Tops"
    style_level1 := "Casual", style_level2 := "Everyday", style_level3 := "Basic"
    gender := "Unisex", color := "red", material := "cotton" }

/-- A record with a failing stored validation, for the gate's error branch. -/
def c7MetaBad : AppMetadata :=
  { c7Meta with
    validation_results := [("item_type", (false, Option.none, Option.none))] }

/-- A CSV row with no `Gender`, no `Brand`, no `Image` and no `ImageURL`. -/
def c5Row : CsvRow := [("ProductTitle", "Blue Top")]

/-! ## Theorems -/

/-- Defaulting with a non-empty fallback never yields the empty string. -/
theorem pyOr_ne_empty (a b : String) (hb : b ≠ "") : pyOr a b ≠ "" := by
  unfold pyOr
  split
  · exact hb
  · assumption

/-- The resolved item type is always one of the two top-level values. -/
theorem determineItemType_mem (names : List String) (csv : Option CsvRow) :
    determineItemType names csv = "Apparel" ∨ determineItemType names csv = "Footwear" := by
  unfold determineItemType
  split
  · split
    · right; rfl
    · left; rfl
  · split
    · right; rfl
    · left; rfl

/-- The generated item-type facet satisfies the invariant whenever the passed
item type is non-empty. -/
theorem buildItemTypeFacet_inv (v : Vocab) (item_type : String) (attrs : PyDict)
    (csv : Option CsvRow) (h : item_type ≠ "") :
    facetInv (buildItemTypeFacet v item_type attrs csv) := by
  refine ⟨rfl, h, ?_, ?_⟩ <;>
    exact pyOr_ne_empty _ _ (by decide)

/-- The generated style facet satisfies the invariant unconditionally. -/
theorem buildStyleFacet_inv (v : Vocab) (csv : Option CsvRow) :
    facetInv (buildStyleFacet v csv) := by
  refine ⟨rfl, ?_, ?_, ?_⟩
  · exact pyOr_ne_empty _ _ (by decide)
  · exact pyOr_ne_empty _ _ (by decide)
  · exact pyOr_ne_empty _ _ (by decide)

/-- C1 (amended).  For every record produced by generation, both hierarchical
facets satisfy the invariant: `full_path` is the literal `" > "`-join of the
three resolved levels and no level is empty (each defaults to `"Unknown"` — or
`"Casual"` for the style level 1 — at worst).  Applying edits, however, stores
the raw edit values as levels and rebuilds `full_path` as the join only when
all three edited levels are non-empty (else the empty string), so an edit
preserves the invariant exactly when every edited level is non-empty. -/
theorem spec_C1_full_path_invariant :
    (∀ (v : Vocab) (attrs : PyDict) (pinfo : PyVal) (csv : Option CsvRow),
      facetInv (generateFacetedMetadata v attrs pinfo csv).facet1 ∧
      facetInv (generateFacetedMetadata v attrs pinfo csv).facet2) ∧
    (∀ (meta : AppMetadata) (e : Edits) (v : Vocab)
      (cm : String → List String → List String) (now : String),
      e.item_type ≠ "" → e.category ≠ "" → e.product_type ≠ "" →
      e.style_level1 ≠ "" → e.style_level2 ≠ "" → e.style_level3 ≠ "" →
      facetInv (updateMetadataFromUI meta e v cm now).faceted.facet1 ∧
      facetInv (updateMetadataFromUI meta e v cm now).faceted.facet2) := by
  constructor
  · intro v attrs pinfo csv
    constructor
    · refine buildItemTypeFacet_inv v _ attrs csv ?_
      rcases determineItemType_mem (candidateNames attrs "category") csv with h | h <;>
        simp [h]
    · exact buildStyleFacet_inv v csv
  · intro meta e v cm now h1 h2 h3 h4 h5 h6
    constructor
    · refine ⟨?_, h1, h2, h3⟩
      show (if e.item_type ≠ "" ∧ e.category ≠ "" ∧ e.product_type ≠ "" then
        e.item_type ++ " > " ++ e.category ++ " > " ++ e.product_type else "") = _
      rw [if_pos ⟨h1, h2, h3⟩]
      rfl
    · refine ⟨?_, h4, h5, h6⟩
      show (if e.style_level1 ≠ "" ∧ e.style_level2 ≠ "" ∧ e.style_level3 ≠ "" then
        e.style_level1 ++ " > " ++ e.style_level2 ++ " > " ++ e.style_level3 else "") = _
      rw [if_pos ⟨h4, h5, h6⟩]
      rfl

/-- C1 witness: at a concrete record and a fully non-empty edit set, the
invariant survives the edit. -/
theorem spec_C1_full_path_invariant_witness :
    facetInv (updateMetadataFromUI c1Meta
      { item_type := "Apparel", category := "Topwear", product_type := "Tops"
        style_level1 := "Casual", style_level2 := "Everyday", style_level3 := "Basic" }
      defaultVocabVM (fun _ _ => []) "2024-01-01T00:00:00").faceted.facet1 ∧
    facetInv (updateMetadataFromUI c1Meta
      { item_type := "Apparel", category := "Topwear", product_type := "Tops"
        style_level1 := "Casual", style_level2 := "Everyday", style_level3 := "Basic" }
      defaultVocabVM (fun _ _ => []) "2024-01-01T00:00:00").faceted.facet2 :=
  spec_C1_full_path_invariant.2 c1Meta
    { item_type := "Apparel", category := "Topwear", product_type := "Tops"
      style_level1 := "Casual", style_level2 := "Everyday", style_level3 := "Basic" }
    defaultVocabVM (fun _ _ => []) "2024-01-01T00:00:00"
    (by decide) (by decide) (by decide) (by decide) (by decide) (by decide)

/-- C1 counterexample: applying an edit set with an empty category to a
generated record leaves `level_2 = ""` and `full_path = ""`, which is not the
join of the three levels — the claimed invariant is not preserved by edits. -/
theorem spec_C1_counterexample :
    c1Edited.faceted.facet1.level_1 = "Apparel" ∧
    c1Edited.faceted.facet1.level_2 = "" ∧
    c1Edited.faceted.facet1.level_3 = "Tops" ∧
    c1Edited.faceted.facet1.full_path = "" ∧
    c1Edited.faceted.facet1.full_path ≠
      c1Edited.faceted.facet1.level_1 ++ " > " ++ c1Edited.faceted.facet1.level_2 ++
        " > " ++ c1Edited.faceted.facet1.level_3 := by
  refine ⟨rfl, rfl, rfl, rfl, ?_⟩
  decide

/-- When a field resolves to no vocabulary list, any non-empty value validates
as free-form, returning the normalized value. -/
theorem validate_freeform (v : Vocab) (cm : String → List String → List String)
    (field value : String) (ctx : Option Ctx) (h1 : pyStrip value ≠ "")
    (h2 : getVocabularyList v field ctx = []) :
    validate v cm field value ctx =
      (true, some (pyNormalize (pyStrip value)), none) := by
  unfold validate
  rw [if_neg h1, if_pos h2]

/-- C3 (amended).  For any non-empty input whose normalization (whitespace
collapsed, title-cased) matches a vocabulary entry case-insensitively,
`validate` returns `(true, t, null)` where `t` is the first such vocabulary
entry in its canonical stored casing — which coincides with the title-cased
input only when the stored entry is itself title-cased.  The match is
case-insensitive and whitespace-insensitive, as claimed. -/
theorem spec_C3_canonical_casing (v : Vocab)
    (cm : String → List String → List String) (field w : String)
    (ctx : Option Ctx) (t : String) (h1 : pyStrip w ≠ "")
    (h2 : (getVocabularyList v field ctx).find?
      (fun u => pyLower u = pyLower (pyNormalize (pyStrip w))) = some t) :
    validate v cm field w ctx = (true, some t, none) := by
  unfold validate
  rw [if_neg h1]
  have hne : ¬ getVocabularyList v field ctx = [] := by
    intro hnil
    rw [hnil] at h2
    simp at h2
  rw [if_neg hne, h2]

/-- C3 witness: `"navy blue"` is verbatim in the default color vocabulary;
validating a casing/whitespace variant of it returns the canonical entry. -/
theorem spec_C3_canonical_casing_witness :
    validate defaultVocabVM (fun _ _ => []) "color" "  nAvY   bLuE " Option.none =
      (true, some "navy blue", none) :=
  spec_C3_canonical_casing defaultVocabVM (fun _ _ => []) "color" "  nAvY   bLuE "
    Option.none "navy blue" (by decide) (by decide)

/-- C3 counterexample: `"red"` is present verbatim in the default color
vocabulary, but `validate` returns the canonical entry `"red"`, not the
title-cased input `"Red"` the claim names. -/
theorem spec_C3_counterexample :
    validate defaultVocabVM (fun _ _ => []) "color" "red" Option.none =
      (true, some "red", none) ∧
    pyTitle "red" = "Red" ∧
    validate defaultVocabVM (fun _ _ => []) "color" "red" Option.none ≠
      (true, some (pyTitle "red"), none) := by
  refine ⟨by decide, by decide, by decide⟩

/-- C10 (confirmed).  With an empty resolved vocabulary list, validation is
free-form: `validate("category", v, ctx)` accepts any non-empty value whenever
the context is absent or carries no item type that is a key of the categories
map, and `validate("product_type", v, ctx)` does likewise whenever the context
lacks a (non-empty) item type or category. -/
theorem spec_C10_incomplete_context_freeform (v : Vocab)
    (cm : String → List String → List String) (val : String)
    (h1 : pyStrip val ≠ "") :
    (validate v cm "category" val Option.none =
      (true, some (pyNormalize (pyStrip val)), none)) ∧
    (∀ ctx : Ctx,
      (∀ it, ctxTruthyGet ctx "item_type" = some it →
        lookupA v.categories it = Option.none) →
      validate v cm "category" val (Option.some ctx) =
        (true, some (pyNormalize (pyStrip val)), none)) ∧
    (∀ ctx : Ctx,
      ctxTruthyGet ctx "item_type" = Option.none ∨
        ctxTruthyGet ctx "category" = Option.none →
      validate v cm "product_type" val (Option.some ctx) =
        (true, some (pyNormalize (pyStrip val)), none)) := by
  refine ⟨validate_freeform v cm "category" val Option.none h1 rfl, ?_, ?_⟩
  · intro ctx hctx
    refine validate_freeform v cm "category" val (Option.some ctx) h1 ?_
    rcases ctx with _ | ⟨p, rest⟩
    · rfl
    · have hred : getVocabularyList v "category" (Option.some (p :: rest)) =
          (match ctxTruthyGet (p :: rest) "item_type" with
           | some it => (lookupA v.categories it).getD []
           | none => []) := rfl
      rw [hred]
      cases hg : ctxTruthyGet (p :: rest) "item_type" with
      | none => rfl
      | some it => simp [hctx it hg]
  · intro ctx hctx
    refine validate_freeform v cm "product_type" val (Option.some ctx) h1 ?_
    rcases ctx with _ | ⟨p, rest⟩
    · rfl
    · have hred : getVocabularyList v "product_type" (Option.some (p :: rest)) =
          (match ctxTruthyGet (p :: rest) "item_type",
                 ctxTruthyGet (p :: rest) "category" with
           | some it, some cat =>
             (lookupA ((lookupA v.productTypes it).getD []) cat).getD []
           | _, _ => []) := rfl
      rw [hred]
      rcases hctx with h | h <;> rw [h] <;>
        cases ctxTruthyGet (p :: rest) "item_type" <;>
        cases ctxTruthyGet (p :: rest) "category" <;> rfl

/-- C10 witness: a category value validates free-form when the context names
an item type that is not in the categories map, and a product type validates
free-form when the context lacks a category. -/
theorem spec_C10_incomplete_context_freeform_witness :
    validate defaultVocabVM (fun _ _ => []) "category" "Anything Goes"
        (Option.some [("item_type", "Jewelry")]) =
      (true, some "Anything Goes", none) ∧
    validate defaultVocabVM (fun _ _ => []) "product_type" "Mystery"
        (Option.some [("item_type", "Apparel")]) =
      (true, some "Mystery", none) := by
  have h := spec_C10_incomplete_context_freeform defaultVocabVM (fun _ _ => [])
    "Anything Goes" (by decide)
  have h2 := spec_C10_incomplete_context_freeform defaultVocabVM (fun _ _ => [])
    "Mystery" (by decide)
  exact ⟨h.2.1 [("item_type", "Jewelry")] (by decide),
    h2.2.2 [("item_type", "Apparel")] (by decide)⟩

/-- C6 (amended).  Construction recovers only from a missing vocabulary file:
that case silently falls back to the built-in default vocabulary, while a
well-formed file loads as-is, and a file that exists with malformed content
propagates the parse error — construction fails exactly then. -/
theorem spec_C6_missing_file_fallback :
    loadVocabulary VocabFile.missing = .ok defaultVocabVM ∧
    (∀ vv : Vocab, loadVocabulary (VocabFile.wellFormed vv) = .ok vv) ∧
    (∀ f : VocabFile, isOkE (loadVocabulary f) = false ↔ f = VocabFile.malformed) := by
  refine ⟨rfl, fun vv => rfl, fun f => ?_⟩
  cases f <;> simp [loadVocabulary, isOkE]

/-- C6 counterexample: a vocabulary path whose file exists but holds malformed
content makes construction raise the JSON parse error instead of falling back
to the default vocabulary. -/
theorem spec_C6_counterexample :
    loadVocabulary VocabFile.malformed = .error "json.decoder.JSONDecodeError" ∧
    isOkE (loadVocabulary VocabFile.malformed) = false :=
  ⟨rfl, rfl⟩

/-- The recursive image scan agrees with its `findSome?` description. -/
theorem imageGenderScan_eq (names : List String) :
    imageGenderScan names = imageGenderSpec names := by
  induction names with
  | nil => rfl
  | cons n ns ih =>
    unfold imageGenderScan imageGenderSpec
    simp only [List.findSome?_cons, List.any_cons, List.any_nil, Bool.or_false,
      Bool.or_assoc]
    simp only [imageGenderSpec, List.any_cons, List.any_nil, Bool.or_false,
      Bool.or_assoc] at ih
    split_ifs with h1 h2
    · rfl
    · rfl
    · exact ih

/-- C4 (amended).  Gender resolution follows the three-tier priority (row
`Gender`, then manual `product_info.gender`, then image candidate text), but
the substring sets differ per tier: the row tier uses {Girl, Women, Female} /
{Boy, Men, Male}; the manual tier only {Women, Girl} / {Men, Boy} — so a
manual gender of `"Female"` or `"Male"` alone resolves to `Unisex`, not
`Women`/`Men`; the image tier matches {women, woman, girl} / {men, man, boy}
case-insensitively; with no signal the default is `Unisex`. -/
theorem spec_C4_gender_tiers (names : List String) (pinfo : PyVal)
    (csv : Option CsvRow) :
    determineGender names pinfo csv = determineGenderSpec names pinfo csv := by
  unfold determineGender determineGenderSpec
  cases (if rowTruthy csv then rowTruthyGet (csv.getD []) "Gender" else none) with
  | some g =>
    unfold genderRule
    simp only [List.any_cons, List.any_nil, Bool.or_false, Bool.or_assoc]
  | none =>
    cases pinfoGender pinfo with
    | some g =>
      unfold genderRule
      simp only [List.any_cons, List.any_nil, Bool.or_false, Bool.or_assoc]
    | none => exact imageGenderScan_eq names

/-- C4 counterexample: an observation bundle whose only gender signal is
`product_info.gender = "Female"` (resp. `"Male"`) resolves to `Unisex`, not
`Women` (resp. `Men`) — the manual tier never checks `Female`/`Male`. -/
theorem spec_C4_counterexample :
    determineGender [] (.dict [("gender", PyVal.str "Female")]) Option.none =
      "Unisex" ∧
    determineGender [] (.dict [("gender", PyVal.str "Male")]) Option.none =
      "Unisex" ∧
    ("Unisex" : String) ≠ "Women" ∧ ("Unisex" : String) ≠ "Men" := by
  refine ⟨by decide, by decide, by decide, by decide⟩

/-- Key presence agrees with lookup success. -/
theorem hasKeyPy_eq_isSome (kv : List (String × PyVal)) (k : String) :
    hasKeyPy kv k = (lookupPy kv k).isSome := by
  induction kv with
  | nil => rfl
  | cons p rest ih =>
    unfold hasKeyPy lookupPy
    unfold hasKeyPy lookupPy at ih
    rw [List.any_cons, List.find?_cons]
    by_cases h : p.1 = k
    · simp [h]
    · simp [h, ih]

/-- The CSV tail never yields anything but a string. -/
theorem flatFromCsv_isStr (key : String) (s2 : Option CsvRow) :
    ∃ s : String, flatFromCsv key s2 = .str s := by
  unfold flatFromCsv
  split
  · split
    · exact ⟨_, rfl⟩
    · exact ⟨_, rfl⟩
  · exact ⟨_, rfl⟩

/-- When the CSV fallback yields no value, the CSV tail is `"Unknown"`. -/
theorem flatFromCsv_unknown (key : String) (s2 : Option CsvRow)
    (h : csvNoValue s2 key = true) : flatFromCsv key s2 = .str "Unknown" := by
  rcases s2 with _ | row
  · rfl
  · unfold csvNoValue at h
    unfold flatFromCsv rowTruthy
    by_cases he : row.isEmpty
    · simp [he]
    · simp only [Bool.not_eq_true] at he
      simp only [he, Bool.false_eq_true, if_false, Bool.not_eq_true'] at h
      simp [he, h]

/-- C2 (amended).  Flat-facet resolution is total (every case returns, no
exception) and defaults to the literal `"Unknown"` whenever neither the
primary source nor the CSV fallback yields a value; it returns a scalar string
for every well-shaped primary value — a ranked candidate list whose first
candidate carries a string name, a dict with a string `primary` or `name`, or
a bare string.  However, a dict-shaped primary value carrying neither
`primary` nor `name` is returned as-is (the dict itself, not a scalar string),
so resolution is not scalar-string-valued on all dict inputs as claimed.  The
five facet entries of the flat metadata are exactly these resolutions (image
attributes as primary source for color/material/pattern, product info for
size/brand). -/
theorem spec_C2_flat_resolution_total :
    (∀ (key : String) (s1 : PyVal) (s2 : Option CsvRow),
      flatFallsThrough s1 key = true → csvNoValue s2 key = true →
      extractFlatValue key s1 s2 = .str "Unknown") ∧
    (∀ (key : String) (s1 : PyVal) (s2 : Option CsvRow),
      primaryOk s1 key = true →
      ∃ s : String, extractFlatValue key s1 s2 = .str s) ∧
    (∀ (attrs : PyDict) (pinfo : PyVal) (csv : Option CsvRow),
      lookupPy (buildFlatMetadata attrs pinfo csv) "color" =
        some (extractFlatValue "color" (.dict attrs) csv) ∧
      lookupPy (buildFlatMetadata attrs pinfo csv) "material" =
        some (extractFlatValue "material" (.dict attrs) csv) ∧
      lookupPy (buildFlatMetadata attrs pinfo csv) "pattern" =
        some (extractFlatValue "pattern" (.dict attrs) csv) ∧
      lookupPy (buildFlatMetadata attrs pinfo csv) "size" =
        some (extractFlatValue "size" pinfo csv) ∧
      lookupPy (buildFlatMetadata attrs pinfo csv) "brand" =
        some (extractFlatValue "brand" pinfo csv)) := by
  refine ⟨?_, ?_, ?_⟩
  · intro key s1 s2 hft hcsv
    have h2 := flatFromCsv_unknown key s2 hcsv
    unfold flatFallsThrough at hft
    unfold extractFlatValue
    rcases s1 with _ | s | q | xs | kv
    · exact h2
    · exact h2
    · exact h2
    · exact h2
    · dsimp only at hft ⊢
      cases hl : lookupPy kv key with
      | none => exact h2
      | some v =>
        rw [hl] at hft
        rcases v with _ | s | q | xs | d
        · exact h2
        · exact Bool.noConfusion hft
        · exact h2
        · cases xs with
          | nil => exact h2
          | cons hd tl => exact Bool.noConfusion hft
        · exact Bool.noConfusion hft
  · intro key s1 s2 hpo
    unfold primaryOk at hpo
    unfold extractFlatValue
    rcases s1 with _ | s | q | xs | kv
    · exact flatFromCsv_isStr key s2
    · exact flatFromCsv_isStr key s2
    · exact flatFromCsv_isStr key s2
    · exact flatFromCsv_isStr key s2
    · dsimp only at hpo ⊢
      cases hl : lookupPy kv key with
      | none => exact flatFromCsv_isStr key s2
      | some v =>
        rw [hl] at hpo
        unfold flatSourceOk at hpo
        rcases v with _ | s | q | xs | d
        · exact flatFromCsv_isStr key s2
        · exact ⟨s, rfl⟩
        · exact flatFromCsv_isStr key s2
        · cases xs with
          | nil => exact flatFromCsv_isStr key s2
          | cons hd tl =>
            rcases hd with _ | s | q | ys | d2
            · exact Bool.noConfusion hpo
            · by_cases hs : s = ""
              · rw [hs] at hpo
                exact Bool.noConfusion hpo
              · refine ⟨s, ?_⟩
                have ht : pyTruthy (PyVal.str s) = true := by
                  unfold pyTruthy
                  simp [hs]
                dsimp only
                simp only [ht, if_true]
            · exact Bool.noConfusion hpo
            · exact Bool.noConfusion hpo
            · dsimp only at hpo ⊢
              cases hn : lookupPy d2 "name" with
              | none =>
                rw [hn] at hpo
                exact Bool.noConfusion hpo
              | some nv =>
                rw [hn] at hpo
                have hk : hasKeyPy d2 "name" = true := by
                  rw [hasKeyPy_eq_isSome, hn]
                  rfl
                rcases nv with _ | s | q | ys | d3
                · exact Bool.noConfusion hpo
                · exact ⟨s, by simp only [hk, if_true, hn, Option.getD]⟩
                · exact Bool.noConfusion hpo
                · exact Bool.noConfusion hpo
                · exact Bool.noConfusion hpo
        · dsimp only at hpo ⊢
          cases hp : lookupPy d "primary" with
          | some pv =>
            rw [hp] at hpo
            have hk : hasKeyPy d "primary" = true := by
              rw [hasKeyPy_eq_isSome, hp]
              rfl
            rcases pv with _ | s | q | ys | d3
            · exact Bool.noConfusion hpo
            · exact ⟨s, by simp only [hk, if_true, hp, Option.getD]⟩
            · exact Bool.noConfusion hpo
            · exact Bool.noConfusion hpo
            · exact Bool.noConfusion hpo
          | none =>
            rw [hp] at hpo
            have hkp : hasKeyPy d "primary" = false := by
              rw [hasKeyPy_eq_isSome, hp]
              rfl
            cases hn : lookupPy d "name" with
            | none =>
              rw [hn] at hpo
              exact Bool.noConfusion hpo
            | some nv =>
              rw [hn] at hpo
              have hk : hasKeyPy d "name" = true := by
                rw [hasKeyPy_eq_isSome, hn]
                rfl
              rcases nv with _ | s | q | ys | d3
              · exact Bool.noConfusion hpo
              · exact ⟨s, by simp only [hkp, hk, if_true, if_false,
                  Bool.false_eq_true, hn, Option.getD]⟩
              · exact Bool.noConfusion hpo
              · exact Bool.noConfusion hpo
              · exact Bool.noConfusion hpo
  · intro attrs pinfo csv
    exact ⟨rfl, rfl, rfl, rfl, rfl⟩

/-- C2 witness: a missing key on both sources resolves to `"Unknown"`, and a
ranked candidate list resolves to its top candidate's name. -/
theorem spec_C2_flat_resolution_total_witness :
    extractFlatValue "color" (.dict []) Option.none = .str "Unknown" ∧
    (∃ s : String, extractFlatValue "color"
      (.dict [("color", .list [.dict [("name", .str "White"),
        ("confidence", .num (9/10))]])]) Option.none = .str s) :=
  ⟨spec_C2_flat_resolution_total.1 "color" (.dict []) Option.none
      (by decide) (by decide),
    spec_C2_flat_resolution_total.2.1 "color"
      (.dict [("color", .list [.dict [("name", .str "White"),
        ("confidence", .num (9/10))]])]) Option.none (by decide)⟩

/-- C2 counterexample: an image attribute value that is a dict with neither
`primary` nor `name` is returned as the dict itself — the resolved flat facet
is not a scalar string. -/
theorem spec_C2_counterexample :
    extractFlatValue "color" (.dict [("color", PyVal.dict [])]) Option.none =
      PyVal.dict [] ∧
    ∀ s : String,
      extractFlatValue "color" (.dict [("color", PyVal.dict [])]) Option.none ≠
        PyVal.str s := by
  refine ⟨rfl, fun s h => ?_⟩
  rw [show extractFlatValue "color" (.dict [("color", PyVal.dict [])])
    Option.none = PyVal.dict [] from rfl] at h
  exact PyVal.noConfusion h

/-- Rounding to two decimals preserves nonnegativity. -/
theorem roundTo2_nonneg (x : ℚ) (h : 0 ≤ x) : 0 ≤ roundTo2 x := by
  unfold roundTo2
  have h1 : (0 : ℤ) ≤ round (100 * x) := by
    rw [round_eq]
    have h0 : (0 : ℤ) = ⌊(1 : ℚ) / 2⌋ := by norm_num
    rw [h0]
    exact Int.floor_mono (by linarith)
  have h2 : (0 : ℚ) ≤ ((round (100 * x) : ℤ) : ℚ) := by exact_mod_cast h1
  linarith

/-- Rounding to two decimals preserves the upper bound `1`. -/
theorem roundTo2_le_one (x : ℚ) (h : x ≤ 1) : roundTo2 x ≤ 1 := by
  unfold roundTo2
  have h1 : round (100 * x) ≤ 100 := by
    rw [round_eq]
    have h0 : (100 : ℤ) = ⌊(100 : ℚ) + 1 / 2⌋ := by norm_num
    rw [h0]
    exact Int.floor_mono (by linarith)
  rw [div_le_one (by norm_num)]
  exact_mod_cast h1

/-- Every rounded score is an integer number of hundredths. -/
theorem roundTo2_cent (x : ℚ) : ∃ n : ℤ, roundTo2 x = (n : ℚ) / 100 :=
  ⟨round (100 * x), rfl⟩

/-- The source base table stays in `[0, 1]`. -/
theorem sourceBaseSpec_bounds (source : String) :
    0 ≤ sourceBaseSpec source ∧ sourceBaseSpec source ≤ 1 := by
  unfold sourceBaseSpec
  split_ifs <;> norm_num

/-- The image blend stays in `[0, 1]` for image confidences in `[0, 1]`. -/
theorem blendImageSpec_bounds (source : String) (ic : Option ℚ) (b : ℚ)
    (hb : 0 ≤ b ∧ b ≤ 1) (hic : ∀ c, ic = some c → 0 ≤ c ∧ c ≤ 1) :
    0 ≤ blendImageSpec source ic b ∧ blendImageSpec source ic b ≤ 1 := by
  unfold blendImageSpec
  split_ifs with h
  · rcases ic with _ | c
    · exact hb
    · have hc := hic c rfl
      refine ⟨by linarith [hb.1, hc.1], by linarith [hb.2, hc.2]⟩
  · exact hb

/-- The vocabulary adjustment stays in `[0, 1]`. -/
theorem vocabAdjustSpec_bounds (vm : Option Bool) (b : ℚ)
    (hb : 0 ≤ b ∧ b ≤ 1) :
    0 ≤ vocabAdjustSpec vm b ∧ vocabAdjustSpec vm b ≤ 1 := by
  unfold vocabAdjustSpec
  rcases vm with _ | bb
  · exact hb
  · cases bb
    · exact ⟨le_max_left 0 _, max_le (by norm_num) (by linarith [hb.2])⟩
    · exact ⟨le_min (by norm_num) (by linarith [hb.1]), min_le_left 1 _⟩

/-- The field adjustment stays in `[0, 1]` for image confidences in `[0, 1]`. -/
theorem fieldAdjustSpec_bounds (field source : String) (ic : Option ℚ) (b : ℚ)
    (hb : 0 ≤ b ∧ b ≤ 1) (hic : ∀ c, ic = some c → 0 ≤ c ∧ c ≤ 1) :
    0 ≤ fieldAdjustSpec field source ic b ∧ fieldAdjustSpec field source ic b ≤ 1 := by
  unfold fieldAdjustSpec
  split_ifs with h1 h2 h3 h4
  · exact ⟨le_min (by norm_num) (by linarith [hb.1]), min_le_left 1 _⟩
  · rcases ic with _ | c
    · exact hb
    · have hc := hic c rfl
      dsimp only
      split_ifs with h5
      · exact hb
      · exact hc
  · exact hb
  · exact ⟨le_max_left 0 _, max_le (by norm_num) (by linarith [hb.2])⟩
  · exact hb

/-- The source's image-blend step written over an arbitrary running base
equals spec stage 2. -/
theorem blendStep_eq (source : String) (ic : Option ℚ) (b : ℚ) :
    (match ic with
     | some c => if source = "image" then (b + c) / 2 else b
     | none => b) = blendImageSpec source ic b := by
  unfold blendImageSpec
  rcases ic with _ | c
  · split_ifs <;> rfl
  · rfl

/-- The source's vocabulary-adjustment step equals spec stage 3. -/
theorem vocabStep_eq (vm : Option Bool) (b : ℚ) :
    (match vm with
     | some bb => if bb then min 1 (b + 1/10) else max 0 (b - 2/10)
     | none => b) = vocabAdjustSpec vm b := by
  rcases vm with _ | bb
  · rfl
  · cases bb <;> rfl

/-- The source's field-specific step equals spec stage 4. -/
theorem fieldStep_eq (field source : String) (ic : Option ℚ) (b : ℚ) :
    (if field = "gender" ∨ field = "item_type" ∨ field = "size" then
      min 1 (b + 1/10)
    else if field = "color" ∨ field = "material" then
      (match ic with
       | some c => if source = "image" ∧ c ≠ 0 then c else b
       | none => b)
    else if field = "title" ∨ field = "description" then max 0 (b - 1/10)
    else b) = fieldAdjustSpec field source ic b := by
  unfold fieldAdjustSpec
  simp only [List.contains_cons, List.contains_nil, Bool.or_false, beq_iff_eq,
    Bool.or_eq_true]
  rcases ic with _ | c <;> dsimp only
  · split_ifs <;> rfl
  · split_ifs <;> first | rfl | tauto

/-- C9 (confirmed).  The confidence computation is exactly the staged pipeline
of the claim — source base (`manual=1.0, csv=0.9, image=0.7, generated=0.6`,
unknown `0.5`); average with a supplied image confidence when the source is
`image`; `+0.1`/`−0.2` clamped vocabulary adjustment; field overrides
(`gender`/`item_type`/`size` `+0.1` capped, `color`/`material` from `image`
replaced by the raw image confidence when one is available (a nonzero supplied
value, per the source's truthiness test), `title`/`description` `−0.1`
floored); rounded to two decimals — and for image confidences within `[0, 1]`
the result lies in `[0, 1]` and is an integer number of hundredths. -/
theorem spec_C9_confidence_pipeline (field : String) (value : PyVal)
    (source : String) (ic : Option ℚ) (vm : Option Bool) :
    calculateConfidence field value source ic vm =
      calculateConfidenceSpec field source ic vm ∧
    ((∀ c, ic = some c → 0 ≤ c ∧ c ≤ 1) →
      0 ≤ calculateConfidence field value source ic vm ∧
        calculateConfidence field value source ic vm ≤ 1) ∧
    (∃ n : ℤ, calculateConfidence field value source ic vm = (n : ℚ) / 100) := by
  have heq : calculateConfidence field value source ic vm =
      calculateConfidenceSpec field source ic vm := by
    unfold calculateConfidence calculateConfidenceSpec
    dsimp only
    rw [blendStep_eq, vocabStep_eq, fieldStep_eq]
    rfl
  refine ⟨heq, fun hic => ?_, ?_⟩
  · rw [heq]
    unfold calculateConfidenceSpec
    have h0 := sourceBaseSpec_bounds source
    have h1 := blendImageSpec_bounds source ic _ h0 hic
    have h2 := vocabAdjustSpec_bounds vm _ h1
    have h3 := fieldAdjustSpec_bounds field source ic _ h2 hic
    exact ⟨roundTo2_nonneg _ h3.1, roundTo2_le_one _ h3.2⟩
  · rw [heq]
    unfold calculateConfidenceSpec
    exact roundTo2_cent _

/-- C9 witness: a color scored from an image with confidence `0.5` and a
vocabulary mismatch — the pipeline discards the blend and the mismatch penalty
in favour of the raw image confidence, and the result lies in `[0, 1]`. -/
theorem spec_C9_confidence_pipeline_witness :
    calculateConfidence "color" PyVal.none "image" (some (1/2)) (some false) =
      calculateConfidenceSpec "color" "image" (some (1/2)) (some false) ∧
    (0 ≤ calculateConfidence "color" PyVal.none "image" (some (1/2)) (some false) ∧
      calculateConfidence "color" PyVal.none "image" (some (1/2)) (some false) ≤ 1) ∧
    calculateConfidence "color" PyVal.none "image" (some (1/2)) (some false) = 1/2 := by
  have h := spec_C9_confidence_pipeline "color" PyVal.none "image"
    (some (1/2)) (some false)
  refine ⟨h.1, h.2.1 ?_, ?_⟩
  · intro c hc
    cases hc
    norm_num
  · unfold calculateConfidence roundTo2
    simp
    norm_num [round_eq]

/-- C7 (amended).  The Approve handler is gated by the record's stored
validation results at attempt time: if any tracked validation there is false
it reports the descriptive error and leaves the record unchanged; if all pass
it re-applies the current UI edit values — re-validating them — and marks the
result approved with `approved_at` set.  The gate thus guarantees approval
only relative to the pre-attempt validation results: when the session edit
values no longer validate, the stored approved record carries failing
validation results (see the counterexample). -/
theorem spec_C7_approval_gate :
    (∀ (meta : AppMetadata) (e : Edits) (v : Vocab)
      (cm : String → List String → List String) (now : String),
      allValid meta.validation_results = false →
      approveClick meta e v cm now =
        .error "Cannot approve: Some fields have validation errors. Please fix them first.") ∧
    (∀ (meta : AppMetadata) (e : Edits) (v : Vocab)
      (cm : String → List String → List String) (now : String),
      allValid meta.validation_results = true →
      approveClick meta e v cm now =
        .ok { updateMetadataFromUI meta e v cm now with
          status := "approved", approved_at := Option.some now }) := by
  constructor
  · intro meta e v cm now h
    unfold approveClick
    rw [if_pos (by simp [h])]
  · intro meta e v cm now h
    unfold approveClick
    rw [if_neg (by simp [h])]

/-- C7 witness: the gate rejects with the descriptive error when a stored
validation fails, and approves when all stored validations pass. -/
theorem spec_C7_approval_gate_witness :
    approveClick c7MetaBad c7Edits defaultVocabVM (fun _ _ => []) "t" =
      .error "Cannot approve: Some fields have validation errors. Please fix them first." ∧
    approveClick c7Meta c7Edits defaultVocabVM (fun _ _ => []) "t" =
      .ok { updateMetadataFromUI c7Meta c7Edits defaultVocabVM (fun _ _ => []) "t" with
        status := "approved", approved_at := Option.some "t" } :=
  ⟨spec_C7_approval_gate.1 c7MetaBad c7Edits defaultVocabVM (fun _ _ => []) "t" rfl,
   spec_C7_approval_gate.2 c7Meta c7Edits defaultVocabVM (fun _ _ => []) "t" rfl⟩

/-- C7 counterexample: on a record whose stored validations all pass, an
approval attempt with an emptied item-type edit value succeeds — the resulting
record has status `approved` while its (re-computed) tracked validation
results contain a failure, so approve does set `approved` with a tracked
validation false. -/
theorem spec_C7_counterexample :
    (approveClick c7Meta c7Edits defaultVocabVM (fun _ _ => []) "t").toOption.map
        (fun m => (m.status, allValid m.validation_results)) =
      some ("approved", false) ∧
    allValid c7Meta.validation_results = true := by
  constructor
  · rfl
  · rfl

/-- The batch loop with no limit maps each row, from any starting index, to
its tagged outcome. -/
theorem processRows_enumFrom (proc : CsvRow → Except String BulkMetadata)
    (rows : List CsvRow) : ∀ idx,
    processRows proc Option.none rows idx =
      (List.enumFrom idx rows).map (fun p =>
        match proc p.2 with
        | .ok m => Outcome.success m (p.1 + 1) p.2
        | .error e => Outcome.failure e (p.1 + 1) p.2) := by
  induction rows with
  | nil => intro idx; rfl
  | cons r rs ih =>
    intro idx
    unfold processRows
    simp only [limTruthy, Bool.false_eq_true, false_and, if_false,
      List.enumFrom, List.map]
    rw [ih]

/-- C8 (confirmed).  Batch processing over `n` rows returns one outcome per
row in the original input order: the successful record tagged with its 1-based
row index and raw source row, or the error outcome `{error, rowIndex,
sourceRow}` when that row's processing raises — and a raising row never stops
the loop, every subsequent row is still processed (the result is exactly the
per-row map over the enumerated input). -/
theorem spec_C8_row_isolation_and_order
    (proc : CsvRow → Except String BulkMetadata) (rows : List CsvRow) :
    processCsv proc rows Option.none =
      rows.enum.map (fun p =>
        match proc p.2 with
        | .ok m => Outcome.success m (p.1 + 1) p.2
        | .error e => Outcome.failure e (p.1 + 1) p.2) ∧
    (processCsv proc rows Option.none).length = rows.length := by
  have h := processRows_enumFrom proc rows 0
  constructor
  · exact h
  · unfold processCsv
    rw [h, List.length_map, List.enumFrom_length]

/-- C5 (code bug).  `process_single_product` performs no required-field check:
a row missing `Gender`, `Brand` and both image references is processed to a
complete metadata record — for every filesystem, image-analysis collaborator,
downstream component and vocabulary — and the batch loop tags it as a success
outcome, not the error outcome the spec requires. -/
theorem spec_C5_no_required_field_rejection
    (fs : String → Bool) (analyze : String → Except String PyDict)
    (classify extractAttributes : PyDict → CsvRow → PyVal)
    (genTitle genDescription : PInfo → PyDict → String)
    (genBullets genKeywords : PInfo → PyDict → List String)
    (v : Vocab) (dir : Option String) :
    isOkE (processSingleProduct fs analyze classify extractAttributes genTitle
      genDescription genBullets genKeywords v c5Row dir) = true ∧
    ∃ m, processCsv (fun r => processSingleProduct fs analyze classify
      extractAttributes genTitle genDescription genBullets genKeywords v r dir)
      [c5Row] Option.none = [Outcome.success m 1 c5Row] := by
  constructor
  · rfl
  · exact ⟨_, rfl⟩
